import Mathlib

/-!
Shallow embedding of the classroom web application in `src/app.py`:
users, prompts, responses and grades stored in an in-memory relational
state, with the form-driven route handlers modelled as pure functions
from (current user, form data, state) to (outcome, state).

Modelling conventions:
* Flask form fields (`request.form.get(...)`) are `Option String`
  (`none` = field absent, `some ""` = submitted empty).
* Python string truthiness (`s or default`) is `pyOr` / `truthy`.
* Python `int(...)` on a string is `parsePyIntStr`; a raised
  `ValueError` that the route does not catch is the outcome
  `RouteResult.uncaughtException`.
* `flash(msg, 'error')` + redirect is collapsed into the corresponding
  error outcome (`validationError`, `forbidden`, `duplicateName`, ...);
  `get_or_404` failure is `notFound`.
* `datetime.utcnow` timestamps are modelled by the monotone insertion
  counters, and SQL `ORDER BY`s by stable insertion sort.
* SQL `AVG` and Python `round(x, 2)` (banker's rounding) are modelled
  on exact rationals (`ratAvg`, `round2`).
-/

/-- Python `(s or d)` for an optional form string: `None` and `""` are falsy. -/
def pyOr (s : Option String) (d : String) : String :=
  match s with
  | none => d
  | some v => if v = "" then d else v

/-- Python truthiness of an optional string. -/
def truthy (s : Option String) : Bool :=
  match s with
  | none => false
  | some v => v ≠ ""

/-- Python `str.strip()`: drop leading and trailing whitespace. -/
def pyStrip (s : String) : String :=
  String.mk (((s.data.dropWhile Char.isWhitespace).reverse.dropWhile
    Char.isWhitespace).reverse)

/-- Decimal digit run to a number: `some` iff nonempty and all digits. -/
def digitsToNat? (cs : List Char) : Option Nat :=
  if cs ≠ [] ∧ cs.all Char.isDigit then
    some (cs.foldl (fun acc c => 10 * acc + (c.toNat - 48)) 0)
  else none

/-- Python `int(s)` on a string: optional surrounding whitespace, optional
sign, then decimal digits; `none` models a raised `ValueError`. -/
def parsePyIntStr (s : String) : Option Int :=
  match (pyStrip s).data with
  | '-' :: rest => (digitsToNat? rest).map (fun n => -(n : Int))
  | '+' :: rest => (digitsToNat? rest).map (fun n => (n : Int))
  | t => (digitsToNat? t).map (fun n => (n : Int))

/-- Python `int(request.form.get('score'))`: `int(None)` raises `TypeError`,
which `grade_response` catches together with `ValueError`, so both are `none`. -/
def parseScoreField (s : Option String) : Option Int :=
  match s with
  | none => none
  | some v => parsePyIntStr v

/-- `werkzeug.generate_password_hash`, abstracted to a deterministic tag. -/
def hashPassword (p : String) : String := "pbkdf2:sha256$" ++ p

/-- Python's built-in `round` to the nearest integer (banker's rounding:
halves go to the even neighbour). -/
def pyRound (q : ℚ) : ℤ :=
  if q - ⌊q⌋ < 1/2 then ⌊q⌋
  else if 1/2 < q - ⌊q⌋ then ⌊q⌋ + 1
  else if 2 ∣ ⌊q⌋ then ⌊q⌋ else ⌊q⌋ + 1

/-- Python `round(q, 2)`. -/
def round2 (q : ℚ) : ℚ := (pyRound (q * 100) : ℚ) / 100

/-- SQL `AVG` over a list of integer scores, as an exact rational. -/
def ratAvg (l : List Int) : ℚ := (l.map (fun s => (s : ℚ))).sum / l.length

/-- Row of the `user` table (`class User`). -/
structure User where
  id : Nat
  name : String
  password_hash : String
  user_type : String
  year_level : Option Int
deriving Repr, DecidableEq

/-- Row of the `prompt` table (`class Prompt`). -/
structure Prompt where
  id : Nat
  title : String
  content : String
  subject : String
  teacher_id : Nat
  timestamp : Nat
deriving Repr, DecidableEq

/-- Row of the `response` table (`class Response`). -/
structure Response where
  id : Nat
  content : String
  prompt_id : Nat
  student_id : Nat
  timestamp : Nat
deriving Repr, DecidableEq

/-- Row of the `grade` table (`class Grade`). -/
structure Grade where
  id : Nat
  score : Int
  feedback_text : Option String
  response_id : Nat
deriving Repr, DecidableEq

/-- The SQLite database: four tables plus autoincrement counters (also used
as the monotone timestamp source). -/
structure DB where
  users : List User
  prompts : List Prompt
  responses : List Response
  grades : List Grade
  nextUserId : Nat
  nextPromptId : Nat
  nextResponseId : Nat
  nextGradeId : Nat
deriving Repr, DecidableEq

/-- Outcome of one route handler call, collapsing flash+redirect pairs into
the error kind they carry. `uncaughtException` is a Python exception that no
handler catches (an HTTP 500, not a flash message). -/
inductive RouteResult where
  | success
  | validationError
  | notFound
  | forbidden
  | invalidCredentials
  | duplicateName
  | uncaughtException
deriving Repr, DecidableEq

/-- Form fields of `POST /register`. -/
structure RegisterForm where
  name : Option String
  password : Option String
  user_type : Option String
  year_level : Option String
deriving Repr, DecidableEq

/-- The validation-and-insert tail of `register`, after `year_level` has been
computed (lines 112-129): the three checks in source order, then the insert. -/
def registerValidated (form : RegisterForm) (db : DB) (year_level : Option Int) :
    RouteResult × DB :=
  let name := pyStrip (pyOr form.name "")
  let password := pyOr form.password ""
  if name = "" ∨ password = "" ∨ ¬ truthy form.user_type then
    (.validationError, db)
  else if form.user_type = some "Student" ∧ year_level = none then
    (.validationError, db)
  else if db.users.any (fun u => u.name = name) then
    (.duplicateName, db)
  else
    let user : User :=
      { id := db.nextUserId
        name := name
        password_hash := hashPassword password
        user_type := form.user_type.getD ""
        year_level := year_level }
    (.success, { db with users := db.users ++ [user], nextUserId := db.nextUserId + 1 })

/-- `register` (POST branch of `src/app.py`, lines 103-129).
`year_level = int(year_level_raw) if year_level_raw and user_type == 'Student'
else None` runs before any validation and outside any try/except, so a
non-numeric `year_level` for a Student raises an uncaught `ValueError`. -/
def register (form : RegisterForm) (db : DB) : RouteResult × DB :=
  if truthy form.year_level ∧ form.user_type = some "Student" then
    match parsePyIntStr (form.year_level.getD "") with
    | none => (.uncaughtException, db)
    | some v => registerValidated form db (some v)
  else registerValidated form db none

/-- `login` (POST branch, lines 133-144). -/
def login (form : Option String × Option String) (db : DB) : RouteResult × DB :=
  let name := pyStrip (pyOr form.1 "")
  let password := pyOr form.2 ""
  match db.users.find? (fun u => u.name = name) with
  | none => (.invalidCredentials, db)
  | some u =>
    if u.password_hash = hashPassword password then (.success, db)
    else (.invalidCredentials, db)

/-- `GET /teacher/dashboard` (lines 153-158): own prompts, newest first. -/
def teacher_dashboard (current : Option User) (db : DB) :
    RouteResult × DB × List Prompt :=
  match current with
  | none => (.forbidden, db, [])
  | some u =>
    if u.user_type ≠ "Teacher" then (.forbidden, db, [])
    else
      (.success, db,
        (db.prompts.filter (fun p => p.teacher_id = u.id)).insertionSort
          (fun a b => b.timestamp ≤ a.timestamp))

/-- `GET /student/dashboard` (lines 160-165): own responses, newest first. -/
def student_dashboard (current : Option User) (db : DB) :
    RouteResult × DB × List Response :=
  match current with
  | none => (.forbidden, db, [])
  | some u =>
    if u.user_type ≠ "Student" then (.forbidden, db, [])
    else
      (.success, db,
        (db.responses.filter (fun r => r.student_id = u.id)).insertionSort
          (fun a b => b.timestamp ≤ a.timestamp))

/-- Form fields of `POST /create_prompt`. -/
structure PromptForm where
  title : Option String
  content : Option String
  subject : Option String
deriving Repr, DecidableEq

/-- `create_prompt` (POST branch, lines 167-185). Note
`(request.form.get('subject') or 'General').strip()`: the default applies
before stripping, so a whitespace-only subject strips to `""`. -/
def create_prompt (current : Option User) (form : PromptForm) (db : DB) :
    RouteResult × DB :=
  match current with
  | none => (.forbidden, db)
  | some u =>
    if u.user_type ≠ "Teacher" then (.forbidden, db)
    else
      let title := pyStrip (pyOr form.title "")
      let content := pyStrip (pyOr form.content "")
      let subject := pyStrip (pyOr form.subject "General")
      if title = "" ∨ content = "" then (.validationError, db)
      else
        let p : Prompt :=
          { id := db.nextPromptId
            title := title
            content := content
            subject := subject
            teacher_id := u.id
            timestamp := db.nextPromptId }
        (.success, { db with prompts := db.prompts ++ [p], nextPromptId := db.nextPromptId + 1 })

/-- `GET /prompts` (lines 187-192): all prompts, newest first, Students only. -/
def prompts_route (current : Option User) (db : DB) :
    RouteResult × DB × List Prompt :=
  match current with
  | none => (.forbidden, db, [])
  | some u =>
    if u.user_type ≠ "Student" then (.forbidden, db, [])
    else
      (.success, db, db.prompts.insertionSort (fun a b => b.timestamp ≤ a.timestamp))

/-- `view_prompt` (POST branch, lines 194-209): submit a Response. -/
def view_prompt (current : Option User) (prompt_id : Nat)
    (contentForm : Option String) (db : DB) : RouteResult × DB :=
  match current with
  | none => (.forbidden, db)
  | some u =>
    if u.user_type ≠ "Student" then (.forbidden, db)
    else
      match db.prompts.find? (fun p => p.id = prompt_id) with
      | none => (.notFound, db)
      | some _ =>
        let content := pyStrip (pyOr contentForm "")
        if content = "" then (.validationError, db)
        else
          let r : Response :=
            { id := db.nextResponseId
              content := content
              prompt_id := prompt_id
              student_id := u.id
              timestamp := db.nextResponseId }
          (.success,
            { db with responses := db.responses ++ [r],
                      nextResponseId := db.nextResponseId + 1 })

/-- `grade_responses` (`GET /grade/<prompt_id>`, lines 211-220): the grading
list, responses oldest first, owner only. -/
def grade_responses (current : Option User) (prompt_id : Nat) (db : DB) :
    RouteResult × DB × List Response :=
  match current with
  | none => (.forbidden, db, [])
  | some u =>
    if u.user_type ≠ "Teacher" then (.forbidden, db, [])
    else
      match db.prompts.find? (fun p => p.id = prompt_id) with
      | none => (.notFound, db, [])
      | some prompt =>
        if prompt.teacher_id ≠ u.id then (.forbidden, db, [])
        else
          (.success, db,
            (db.responses.filter (fun r => r.prompt_id = prompt_id)).insertionSort
              (fun a b => a.timestamp ≤ b.timestamp))

/-- Form fields of `POST /grade_response/<response_id>`. -/
structure GradeForm where
  score : Option String
  feedback : Option String
deriving Repr, DecidableEq

/-- In-place update of the first grade row matching `response_id`
(`existing_grade.score = score; existing_grade.feedback_text = feedback`). -/
def updateFirstGrade (gs : List Grade) (rid : Nat) (score : Int) (fb : String) :
    List Grade :=
  match gs with
  | [] => []
  | g :: rest =>
    if g.response_id = rid then
      { g with score := score, feedback_text := some fb } :: rest
    else g :: updateFirstGrade rest rid score fb

/-- `grade_response` (`POST /grade_response/<response_id>`, lines 222-253):
role guard, ownership via the parent prompt, score parsing and bounds,
then upsert of the single Grade row. -/
def grade_response (current : Option User) (response_id : Nat)
    (form : GradeForm) (db : DB) : RouteResult × DB :=
  match current with
  | none => (.forbidden, db)
  | some u =>
    if u.user_type ≠ "Teacher" then (.forbidden, db)
    else
      match db.responses.find? (fun r => r.id = response_id) with
      | none => (.notFound, db)
      | some response =>
        match db.prompts.find? (fun p => p.id = response.prompt_id) with
        | none => (.uncaughtException, db)
        | some prompt =>
          if prompt.teacher_id ≠ u.id then (.forbidden, db)
          else
            let feedback := pyOr form.feedback ""
            match parseScoreField form.score with
            | none => (.validationError, db)
            | some score =>
              if ¬ (0 ≤ score ∧ score ≤ 100) then (.validationError, db)
              else
                match db.grades.find? (fun g => g.response_id = response_id) with
                | none =>
                  let g : Grade :=
                    { id := db.nextGradeId
                      score := score
                      feedback_text := some feedback
                      response_id := response_id }
                  (.success,
                    { db with grades := db.grades ++ [g],
                              nextGradeId := db.nextGradeId + 1 })
                | some _ =>
                  (.success,
                    { db with grades :=
                        updateFirstGrade db.grades response_id score feedback })

/-- All scores attached (via a Response) to the student with id `sid`:
the multiset produced by the leaderboard's `Response ⋈ Grade` join. -/
def studentScores (db : DB) (sid : Nat) : List Int :=
  (db.responses.filter (fun r => r.student_id = sid)).flatMap
    (fun r => (db.grades.filter (fun g => g.response_id = r.id)).map (fun g => g.score))

/-- One displayed leaderboard row. -/
structure LBEntry where
  rank : Nat
  name : String
  year_level : Option Int
  avg_score : ℚ
deriving Repr, DecidableEq

/-- The grouped rows of the leaderboard query, before ordering: each Student
with at least one joined Grade row, paired with the exact average score. -/
def leaderboardRows (db : DB) : List (User × ℚ) :=
  (db.users.filter (fun u => u.user_type = "Student")).filterMap
    (fun u =>
      let sc := studentScores db u.id
      if sc.isEmpty then none else some (u, ratAvg sc))

/-- `leaderboard` (lines 255-273): order descending by average, then
`enumerate(..., start=1)` assigns ranks and `round(avg, 2)` is applied. -/
def computeLeaderboard (db : DB) : List LBEntry :=
  let sorted := (leaderboardRows db).insertionSort (fun a b => b.2 ≤ a.2)
  sorted.enum.map (fun ie => ⟨ie.1 + 1, ie.2.1.name, ie.2.1.year_level, round2 ie.2.2⟩)

/-! ### Concrete fixtures used by witnesses and counterexamples -/

/-- A fresh, empty database. -/
def emptyDB : DB := ⟨[], [], [], [], 1, 1, 1, 1⟩

/-- A registered teacher. -/
def tAlice : User := ⟨1, "alice", hashPassword "pw", "Teacher", none⟩

/-- A second teacher, owner of nothing in `gradeDB`. -/
def tBob : User := ⟨4, "bob", hashPassword "pw", "Teacher", none⟩

/-- A student. -/
def sSam : User := ⟨2, "sam", hashPassword "pw", "Student", some 7⟩

/-- One teacher (`tAlice`), one student, one prompt owned by `tAlice`,
one ungraded response to it. -/
def gradeDB : DB :=
  { users := [tAlice, sSam]
    prompts := [⟨1, "T1", "C", "General", 1, 0⟩]
    responses := [⟨1, "essay", 1, 2, 0⟩]
    grades := []
    nextUserId := 3, nextPromptId := 2, nextResponseId := 2, nextGradeId := 1 }

/-- The spec's leaderboard scenario: students S1 with grades [80, 90] and
S2 with grades [100] (plus their teacher). -/
def exampleDB : DB :=
  { users := [⟨1, "T", hashPassword "pw", "Teacher", none⟩,
              ⟨2, "S1", hashPassword "pw", "Student", some 7⟩,
              ⟨3, "S2", hashPassword "pw", "Student", some 8⟩]
    prompts := [⟨1, "T1", "C", "General", 1, 0⟩]
    responses := [⟨1, "r1", 1, 2, 0⟩, ⟨2, "r2", 1, 2, 1⟩, ⟨3, "r3", 1, 3, 2⟩]
    grades := [⟨1, 80, some "", 1⟩, ⟨2, 90, some "", 2⟩, ⟨3, 100, some "", 3⟩]
    nextUserId := 4, nextPromptId := 2, nextResponseId := 4, nextGradeId := 4 }

/-- `gradeDB` after grading response 1 with (50, "ok"). -/
def gradeDB1 : DB := { gradeDB with grades := [⟨1, 50, some "ok", 1⟩], nextGradeId := 2 }

/-- `gradeDB` after re-grading response 1 with (70, "better"). -/
def gradeDB2 : DB := { gradeDB with grades := [⟨1, 70, some "better", 1⟩], nextGradeId := 2 }

/-- `gradeDB` after grading response 1 with score 50 and no feedback field. -/
def gradeDBnofb : DB := { gradeDB with grades := [⟨1, 50, some "", 1⟩], nextGradeId := 2 }

/-! ### Helper lemmas -/

/-- `round(q, 2)` of an integer is that integer. -/
theorem round2_intCast (n : ℤ) : round2 ((n : ℚ)) = n := by
  have h : ((n : ℚ) * 100) = (((n * 100 : ℤ)) : ℚ) := by push_cast; ring
  unfold round2 pyRound
  rw [h, Int.floor_intCast]
  norm_num

/-- Updating the first matching grade row in place leaves exactly that row
matching, provided the rows satisfied the unique-per-response constraint. -/
theorem filter_updateFirstGrade (gs : List Grade) (rid : Nat) (s : Int) (fb : String)
    (g0 : Grade) (hfind : gs.find? (fun g => g.response_id = rid) = some g0)
    (hc : gs.countP (fun g => g.response_id = rid) ≤ 1) :
    (updateFirstGrade gs rid s fb).filter (fun g => g.response_id = rid) =
      [{ g0 with score := s, feedback_text := some fb }] := by
  induction gs with
  | nil => simp at hfind
  | cons g rest ih =>
    by_cases h : g.response_id = rid
    · rw [List.find?_cons_of_pos _ (by simpa using h)] at hfind
      have hg : g = g0 := by simpa using hfind
      subst hg
      have hrest : rest.countP (fun g => g.response_id = rid) = 0 := by
        rw [List.countP_cons] at hc
        have h1 : (decide (g.response_id = rid)) = true := by simpa using h
        rw [h1] at hc
        simpa using hc
      have hfil : rest.filter (fun g => g.response_id = rid) = [] := by
        rw [← List.length_eq_zero, ← List.countP_eq_length_filter]
        exact hrest
      simp [updateFirstGrade, h, List.filter_cons, hfil]
    · rw [List.find?_cons_of_neg _ (by simpa using h)] at hfind
      rw [List.countP_cons] at hc
      simp [h] at hc
      simp [updateFirstGrade, h, List.filter_cons, ih hfind hc]

/-- What a successful `grade_response` guarantees, assuming the
unique-grade-per-response constraint held before the call: the score was
parsed and in bounds, exactly one Grade row for the response remains, and
it carries the submitted score and feedback; no other table changes. -/
theorem grade_response_success_spec (t : User) (rid : Nat) (form : GradeForm)
    (db db' : DB)
    (hc : db.grades.countP (fun g => g.response_id = rid) ≤ 1)
    (h : grade_response (some t) rid form db = (.success, db')) :
    ∃ s gid,
      parseScoreField form.score = some s ∧ 0 ≤ s ∧ s ≤ 100 ∧
      db'.grades.filter (fun g => g.response_id = rid) =
        [⟨gid, s, some (pyOr form.feedback ""), rid⟩] ∧
      db'.users = db.users ∧ db'.prompts = db.prompts ∧
      db'.responses = db.responses ∧
      db'.grades.countP (fun g => g.response_id = rid) = 1 := by
  by_cases hrole : t.user_type ≠ "Teacher"
  · simp [grade_response, hrole] at h
  · cases hresp : db.responses.find? (fun r => r.id = rid) with
    | none => simp [grade_response, hrole, hresp] at h
    | some response =>
      cases hprompt : db.prompts.find? (fun p => p.id = response.prompt_id) with
      | none => simp [grade_response, hrole, hresp, hprompt] at h
      | some prompt =>
        by_cases hown : prompt.teacher_id ≠ t.id
        · simp [grade_response, hrole, hresp, hprompt, hown] at h
        · cases hparse : parseScoreField form.score with
          | none => simp [grade_response, hrole, hresp, hprompt, hown, hparse] at h
          | some score =>
            by_cases hbound : 0 ≤ score ∧ score ≤ 100
            · cases hfindg : db.grades.find? (fun g => g.response_id = rid) with
              | none =>
                simp [grade_response, hrole, hresp, hprompt, hown, hparse, hbound,
                  hfindg, Prod.mk.injEq] at h
                subst h
                have hfil0 : db.grades.filter (fun g => g.response_id = rid) = [] := by
                  rw [List.filter_eq_nil_iff]
                  intro a ha
                  have := List.find?_eq_none.mp hfindg a ha
                  simpa using this
                refine ⟨score, db.nextGradeId, rfl, hbound.1, hbound.2, ?_, rfl, rfl, rfl, ?_⟩
                · simp [List.filter_append, hfil0]
                · simp [List.countP_eq_length_filter, List.filter_append, hfil0]
              | some g0 =>
                simp [grade_response, hrole, hresp, hprompt, hown, hparse, hbound,
                  hfindg, Prod.mk.injEq] at h
                subst h
                have hrid : g0.response_id = rid := by
                  have := List.find?_some hfindg
                  simpa using this
                have hfil := filter_updateFirstGrade db.grades rid score
                  (pyOr form.feedback "") g0 hfindg hc
                refine ⟨score, g0.id, rfl, hbound.1, hbound.2, ?_, rfl, rfl, rfl, ?_⟩
                · rw [show ({ db with grades :=
                      updateFirstGrade db.grades rid score (pyOr form.feedback "") } : DB).grades =
                      updateFirstGrade db.grades rid score (pyOr form.feedback "") from rfl, hfil]
                  simp [hrid]
                · rw [show ({ db with grades :=
                      updateFirstGrade db.grades rid score (pyOr form.feedback "") } : DB).grades =
                      updateFirstGrade db.grades rid score (pyOr form.feedback "") from rfl,
                    List.countP_eq_length_filter, hfil]
                  rfl
            · simp [grade_response, hrole, hresp, hprompt, hown, hparse, hbound] at h

/-- `create_prompt` never touches the `user` table. -/
theorem create_prompt_users_eq (current : Option User) (form : PromptForm) (db : DB) :
    (create_prompt current form db).2.users = db.users := by
  unfold create_prompt
  cases current with
  | none => rfl
  | some u =>
    by_cases h : u.user_type ≠ "Teacher"
    · simp [h]
    · simp only [h]
      repeat (first | rfl | split)

/-- `view_prompt` never touches the `user` table. -/
theorem view_prompt_users_eq (current : Option User) (pid : Nat)
    (c : Option String) (db : DB) :
    (view_prompt current pid c db).2.users = db.users := by
  unfold view_prompt
  cases current with
  | none => rfl
  | some u =>
    by_cases h : u.user_type ≠ "Student"
    · simp [h]
    · simp only [h]
      repeat (first | rfl | split)

/-- `grade_response` never touches the `user` table. -/
theorem grade_response_users_eq (current : Option User) (rid : Nat)
    (form : GradeForm) (db : DB) :
    (grade_response current rid form db).2.users = db.users := by
  unfold grade_response
  cases current with
  | none => rfl
  | some u =>
    by_cases h : u.user_type ≠ "Teacher"
    · simp [h]
    · simp only [h]
      repeat (first | rfl | split)

/-- The validated insert preserves "year_level is set iff the stored role is
Student", provided a non-`none` year_level is only passed for Student forms
(which is how `register` calls it). -/
theorem registerValidated_year_level_iff (form : RegisterForm) (db : DB)
    (year_level : Option Int)
    (hinv : ∀ u ∈ db.users, (u.year_level ≠ none ↔ u.user_type = "Student"))
    (hyl : ∀ v, year_level = some v → form.user_type = some "Student") :
    ∀ u ∈ (registerValidated form db year_level).2.users,
      (u.year_level ≠ none ↔ u.user_type = "Student") := by
  intro u hu
  simp only [registerValidated] at hu
  split at hu
  next h1 => exact hinv u hu
  next h1 =>
    split at hu
    next h2 => exact hinv u hu
    next h2 =>
      split at hu
      next h3 => exact hinv u hu
      next h3 =>
        simp only [List.mem_append, List.mem_singleton] at hu
        rcases hu with hu | hu
        · exact hinv u hu
        · subst hu
          have htr : truthy form.user_type = true := by
            by_contra hf
            exact h1 (Or.inr (Or.inr (by simpa using hf)))
          cases hty : form.user_type with
          | none => simp [truthy, hty] at htr
          | some s =>
            have hs : s ≠ "" := by
              intro hse
              subst hse
              simp [truthy, hty] at htr
            cases hyl2 : year_level with
            | none =>
              have hne : s ≠ "Student" := by
                intro hse
                subst hse
                exact h2 ⟨hty, hyl2⟩
              simp [hty, hyl2, hne]
            | some v =>
              have h4 := hyl v hyl2
              rw [hty] at h4
              have hs2 : s = "Student" := by simpa using h4
              simp [hty, hyl2, hs2]

/-- `register` preserves "year_level is set iff the stored role is Student":
the Student path always stores a parsed year_level, every other path stores
`none` and (when it succeeds) a non-Student role. -/
theorem register_year_level_iff (form : RegisterForm) (db : DB)
    (hinv : ∀ u ∈ db.users, (u.year_level ≠ none ↔ u.user_type = "Student")) :
    ∀ u ∈ (register form db).2.users,
      (u.year_level ≠ none ↔ u.user_type = "Student") := by
  intro u hu
  simp only [register] at hu
  split at hu
  next hcond =>
    split at hu
    · exact hinv u hu
    next v hv =>
      exact registerValidated_year_level_iff form db (some v) hinv
        (fun w hw => hcond.2) u hu
  next hcond =>
    exact registerValidated_year_level_iff form db none hinv
      (fun v hv => by cases hv) u hu

/-! ### Claims -/

/-- C2: for every response and owning teacher, grading the same response
twice (both calls succeeding) leaves exactly one Grade row for that
response, carrying the score and feedback of the second call — update in
place, never a duplicate row. The hypothesis is the storage-level unique
constraint on `Grade.response_id`. -/
theorem grade_twice_single_row (t : User) (rid : Nat) (f1 f2 : GradeForm)
    (db db1 db2 : DB)
    (hc : db.grades.countP (fun g => g.response_id = rid) ≤ 1)
    (h1 : grade_response (some t) rid f1 db = (.success, db1))
    (h2 : grade_response (some t) rid f2 db1 = (.success, db2)) :
    ∃ s2 gid, parseScoreField f2.score = some s2 ∧
      db2.grades.filter (fun g => g.response_id = rid) =
        [⟨gid, s2, some (pyOr f2.feedback ""), rid⟩] := by
  obtain ⟨s1, gid1, -, -, -, -, -, -, -, hcnt1⟩ :=
    grade_response_success_spec t rid f1 db db1 hc h1
  obtain ⟨s2, gid2, hp2, -, -, hfil2, -, -, -, -⟩ :=
    grade_response_success_spec t rid f2 db1 db2 (le_of_eq hcnt1) h2
  exact ⟨s2, gid2, hp2, hfil2⟩

/-- C2 witness: grade response 1 of `gradeDB` with (50, "ok") then
(70, "better"); one row with the latest values remains. -/
theorem grade_twice_single_row_witness :
    gradeDB.grades.countP (fun g => g.response_id = 1) ≤ 1 ∧
    grade_response (some tAlice) 1 ⟨some "50", some "ok"⟩ gradeDB = (.success, gradeDB1) ∧
    grade_response (some tAlice) 1 ⟨some "70", some "better"⟩ gradeDB1 = (.success, gradeDB2) ∧
    (∃ s2 gid, parseScoreField (GradeForm.mk (some "70") (some "better")).score = some s2 ∧
      gradeDB2.grades.filter (fun g => g.response_id = 1) =
        [⟨gid, s2, some (pyOr (GradeForm.mk (some "70") (some "better")).feedback ""), 1⟩]) :=
  ⟨by decide, by decide, by decide,
    grade_twice_single_row tAlice 1 ⟨some "50", some "ok"⟩ ⟨some "70", some "better"⟩
      gradeDB gradeDB1 gradeDB2 (by decide) (by decide) (by decide)⟩

/-- C3: on an existing response owned by the acting teacher, scores "-1",
"101" and any non-parseable string fail with ValidationError leaving the
state unchanged; scores "0" and "100" succeed. -/
theorem score_bounds (t : User) (rid : Nat) (db : DB) (fb : Option String)
    (r : Response) (p : Prompt)
    (ht : t.user_type = "Teacher")
    (hr : db.responses.find? (fun x => x.id = rid) = some r)
    (hp : db.prompts.find? (fun x => x.id = r.prompt_id) = some p)
    (hown : p.teacher_id = t.id) :
    grade_response (some t) rid ⟨some "-1", fb⟩ db = (.validationError, db) ∧
    grade_response (some t) rid ⟨some "101", fb⟩ db = (.validationError, db) ∧
    (∀ s : String, parsePyIntStr s = none →
      grade_response (some t) rid ⟨some s, fb⟩ db = (.validationError, db)) ∧
    (grade_response (some t) rid ⟨some "0", fb⟩ db).1 = .success ∧
    (grade_response (some t) rid ⟨some "100", fb⟩ db).1 = .success := by
  have hm1 : parseScoreField (some "-1") = some (-1) := by decide
  have h101 : parseScoreField (some "101") = some 101 := by decide
  have h0 : parseScoreField (some "0") = some 0 := by decide
  have h100 : parseScoreField (some "100") = some 100 := by decide
  have bm1 : ¬ ((0:ℤ) ≤ -1 ∧ (-1:ℤ) ≤ 100) := by decide
  have b101 : ¬ ((0:ℤ) ≤ 101 ∧ (101:ℤ) ≤ 100) := by decide
  have b0 : (0:ℤ) ≤ 0 ∧ (0:ℤ) ≤ 100 := by decide
  have b100 : (0:ℤ) ≤ 100 ∧ (100:ℤ) ≤ 100 := by decide
  refine ⟨?_, ?_, ?_, ?_, ?_⟩
  · simp [grade_response, ht, hr, hp, hown, hm1, bm1]
  · simp [grade_response, ht, hr, hp, hown, h101, b101]
  · intro s hs
    have hsf : parseScoreField (some s) = none := by simpa [parseScoreField] using hs
    simp [grade_response, ht, hr, hp, hown, hsf]
  · simp only [grade_response, ht, hr, hp, hown]
    simp [b0, h0]
    cases hfg : db.grades.find? (fun g => g.response_id = rid) <;> simp [hfg]
  · simp only [grade_response, ht, hr, hp, hown]
    simp [b100, h100]
    cases hfg : db.grades.find? (fun g => g.response_id = rid) <;> simp [hfg]

/-- C3 witness: the five outcomes at the concrete `gradeDB` scenario. -/
theorem score_bounds_witness :
    grade_response (some tAlice) 1 ⟨some "-1", some "ok"⟩ gradeDB = (.validationError, gradeDB) ∧
    grade_response (some tAlice) 1 ⟨some "101", some "ok"⟩ gradeDB = (.validationError, gradeDB) ∧
    grade_response (some tAlice) 1 ⟨some "abc", some "ok"⟩ gradeDB = (.validationError, gradeDB) ∧
    (grade_response (some tAlice) 1 ⟨some "0", some "ok"⟩ gradeDB).1 = .success ∧
    (grade_response (some tAlice) 1 ⟨some "100", some "ok"⟩ gradeDB).1 = .success := by
  have h := score_bounds tAlice 1 gradeDB (some "ok")
    ⟨1, "essay", 1, 2, 0⟩ ⟨1, "T1", "C", "General", 1, 0⟩
    (by decide) (by decide) (by decide) (by decide)
  exact ⟨h.1, h.2.1, h.2.2.1 "abc" (by decide), h.2.2.2.1, h.2.2.2.2⟩

/-- C4: an authenticated Teacher who does not own a Prompt can neither view
its grading list nor grade any of its responses: both routes return
Forbidden and leave the database unchanged. -/
theorem ownership_guard (t : User) (rid pid : Nat) (db : DB) (gform : GradeForm)
    (ht : t.user_type = "Teacher") :
    (∀ p, db.prompts.find? (fun x => x.id = pid) = some p → p.teacher_id ≠ t.id →
      grade_responses (some t) pid db = (.forbidden, db, [])) ∧
    (∀ r p, db.responses.find? (fun x => x.id = rid) = some r →
      db.prompts.find? (fun x => x.id = r.prompt_id) = some p → p.teacher_id ≠ t.id →
      grade_response (some t) rid gform db = (.forbidden, db)) := by
  constructor
  · intro p hp hne
    simp [grade_responses, ht, hp, hne]
  · intro r p hr hp hne
    simp [grade_response, ht, hr, hp, hne]

/-- C4 witness: `tBob` (teacher id 4) does not own prompt 1 of `gradeDB`. -/
theorem ownership_guard_witness :
    grade_responses (some tBob) 1 gradeDB = (.forbidden, gradeDB, []) ∧
    grade_response (some tBob) 1 ⟨some "50", none⟩ gradeDB = (.forbidden, gradeDB) := by
  have h := ownership_guard tBob 1 1 gradeDB ⟨some "50", none⟩ (by decide)
  exact ⟨h.1 ⟨1, "T1", "C", "General", 1, 0⟩ (by decide) (by decide),
    h.2 ⟨1, "essay", 1, 2, 0⟩ ⟨1, "T1", "C", "General", 1, 0⟩
      (by decide) (by decide) (by decide)⟩

/-- C5: every Teacher-only route hit by a non-Teacher (a Student or an
unauthenticated request) returns Forbidden with the state unchanged, and
dually for every Student-only route hit by a non-Student. -/
theorem role_guard (current : Option User) (db : DB) (pform : PromptForm)
    (gform : GradeForm) (pid rid : Nat) (c : Option String) :
    ((∀ u, current = some u → u.user_type ≠ "Teacher") →
      create_prompt current pform db = (.forbidden, db) ∧
      grade_response current rid gform db = (.forbidden, db) ∧
      grade_responses current pid db = (.forbidden, db, []) ∧
      teacher_dashboard current db = (.forbidden, db, [])) ∧
    ((∀ u, current = some u → u.user_type ≠ "Student") →
      view_prompt current pid c db = (.forbidden, db) ∧
      student_dashboard current db = (.forbidden, db, []) ∧
      prompts_route current db = (.forbidden, db, [])) := by
  constructor
  · intro hT
    cases current with
    | none => exact ⟨rfl, rfl, rfl, rfl⟩
    | some u =>
      have hu := hT u rfl
      exact ⟨by simp [create_prompt, hu], by simp [grade_response, hu],
        by simp [grade_responses, hu], by simp [teacher_dashboard, hu]⟩
  · intro hS
    cases current with
    | none => exact ⟨rfl, rfl, rfl⟩
    | some u =>
      have hu := hS u rfl
      exact ⟨by simp [view_prompt, hu], by simp [student_dashboard, hu],
        by simp [prompts_route, hu]⟩

/-- C5 witness: an unauthenticated create_prompt and a Teacher hitting the
Student-only view_prompt are both Forbidden, state unchanged. -/
theorem role_guard_witness :
    create_prompt none ⟨some "T", some "C", none⟩ emptyDB = (.forbidden, emptyDB) ∧
    view_prompt (some tAlice) 1 (some "x") gradeDB = (.forbidden, gradeDB) := by
  refine ⟨((role_guard none emptyDB ⟨some "T", some "C", none⟩ ⟨none, none⟩ 1 1 none).1
      (fun u hu => by cases hu)).1, ?_⟩
  have h := (role_guard (some tAlice) gradeDB ⟨none, none, none⟩ ⟨none, none⟩ 1 1
      (some "x")).2
  refine (h ?_).1
  intro u hu
  injection hu with h2
  subst h2
  decide

/-- C6 (code bug in `register`): a Student registration with a non-numeric
`year_level` crashes with an uncaught `ValueError` from `int(...)` instead
of being recovered as a validation error. -/
theorem register_nonnumeric_year_uncaught :
    register ⟨some "alice", some "pw", some "Student", some "abc"⟩ emptyDB =
      (.uncaughtException, emptyDB) := by decide

/-- C7 counterexample: registration does not restrict `user_type` to
Teacher/Student — submitting `user_type = "Admin"` succeeds and stores a
User whose role is neither. -/
theorem register_arbitrary_role :
    (register ⟨some "mallory", some "pw", some "Admin", none⟩ emptyDB).1 = .success ∧
    ((register ⟨some "mallory", some "pw", some "Admin", none⟩ emptyDB).2.users.map
      (fun u => u.user_type)) = ["Admin"] := by decide

/-- C7 amended: every operation preserves "year_level is set iff the stored
role is Student" — but the role itself may be any non-empty string, since
registration only checks that `user_type` is non-empty. -/
theorem year_level_iff_student_preserved (form : RegisterForm) (db : DB)
    (current : Option User) (pform : PromptForm) (gform : GradeForm)
    (pid rid : Nat) (c : Option String)
    (hinv : ∀ u ∈ db.users, (u.year_level ≠ none ↔ u.user_type = "Student")) :
    (∀ u ∈ (register form db).2.users,
      (u.year_level ≠ none ↔ u.user_type = "Student")) ∧
    (create_prompt current pform db).2.users = db.users ∧
    (view_prompt current pid c db).2.users = db.users ∧
    (grade_response current rid gform db).2.users = db.users :=
  ⟨register_year_level_iff form db hinv,
    create_prompt_users_eq current pform db,
    view_prompt_users_eq current pid c db,
    grade_response_users_eq current rid gform db⟩

/-- C7 amended witness: the invariant holds of `gradeDB` and survives an
"Admin" registration. -/
theorem year_level_iff_student_preserved_witness :
    (∀ u ∈ gradeDB.users, (u.year_level ≠ none ↔ u.user_type = "Student")) ∧
    (∀ u ∈ (register ⟨some "zoe", some "pw", some "Admin", none⟩ gradeDB).2.users,
      (u.year_level ≠ none ↔ u.user_type = "Student")) :=
  ⟨by decide,
    (year_level_iff_student_preserved ⟨some "zoe", some "pw", some "Admin", none⟩
      gradeDB none ⟨none, none, none⟩ ⟨none, none⟩ 1 1 none (by decide)).1⟩

/-- C8 counterexample: a whitespace-only subject is stripped to `""` — the
created prompt's subject is neither `"General"` nor the submitted value. -/
theorem create_prompt_whitespace_subject :
    (create_prompt (some tAlice) ⟨some "T", some "C", some "   "⟩ emptyDB).1 = .success ∧
    ((create_prompt (some tAlice) ⟨some "T", some "C", some "   "⟩ emptyDB).2.prompts.map
      (fun p => p.subject)) = [""] := by decide

/-- C8 amended: `create_prompt` rejects blank title/content after stripping;
otherwise it stores title/content/subject stripped, where the subject
defaults to "General" only when the field is absent or the empty string
(before stripping), so a whitespace-only subject is stored as `""`. -/
theorem create_prompt_spec (u : User) (form : PromptForm) (db : DB)
    (ht : u.user_type = "Teacher") :
    (pyStrip (pyOr form.title "") = "" ∨ pyStrip (pyOr form.content "") = "" →
      create_prompt (some u) form db = (.validationError, db)) ∧
    (pyStrip (pyOr form.title "") ≠ "" → pyStrip (pyOr form.content "") ≠ "" →
      create_prompt (some u) form db = (.success,
        { db with
            prompts := db.prompts ++
              [⟨db.nextPromptId, pyStrip (pyOr form.title ""),
                pyStrip (pyOr form.content ""), pyStrip (pyOr form.subject "General"),
                u.id, db.nextPromptId⟩]
            nextPromptId := db.nextPromptId + 1 })) ∧
    (form.subject = none ∨ form.subject = some "" →
      pyStrip (pyOr form.subject "General") = "General") := by
  refine ⟨?_, ?_, ?_⟩
  · intro h
    simp [create_prompt, ht, h]
  · intro h1 h2
    simp [create_prompt, ht, h1, h2]
  · intro h
    rcases h with h | h <;> rw [h] <;> decide

/-- C8 amended witness: an absent subject yields "General". -/
theorem create_prompt_spec_witness :
    create_prompt (some tAlice) ⟨some "T", some "C", none⟩ emptyDB =
      (.success,
        { emptyDB with
            prompts := [⟨1, "T", "C", "General", 1, 1⟩]
            nextPromptId := 2 }) := by
  have h := (create_prompt_spec tAlice ⟨some "T", some "C", none⟩ emptyDB
    (by decide)).2.1 (by decide) (by decide)
  exact h

/-- C10: a successful grading with an absent or empty feedback field stores
`feedback_text = ""` (never NULL), on insert and update alike. -/
theorem grade_feedback_empty_string (t : User) (rid : Nat) (form : GradeForm)
    (db db' : DB)
    (hc : db.grades.countP (fun g => g.response_id = rid) ≤ 1)
    (hfb : form.feedback = none ∨ form.feedback = some "")
    (h : grade_response (some t) rid form db = (.success, db')) :
    ∃ s gid, db'.grades.filter (fun g => g.response_id = rid) =
      [⟨gid, s, some "", rid⟩] := by
  obtain ⟨s, gid, -, -, -, hfil, -, -, -, -⟩ :=
    grade_response_success_spec t rid form db db' hc h
  refine ⟨s, gid, ?_⟩
  rcases hfb with hfb | hfb <;> rw [hfb] at hfil <;> simpa [pyOr] using hfil

/-- C10 witness: grading with no feedback field inserts feedback `""`. -/
theorem grade_feedback_empty_string_witness :
    gradeDB.grades.countP (fun g => g.response_id = 1) ≤ 1 ∧
    grade_response (some tAlice) 1 ⟨some "50", none⟩ gradeDB = (.success, gradeDBnofb) ∧
    (∃ s gid, gradeDBnofb.grades.filter (fun g => g.response_id = 1) =
      [⟨gid, s, some "", 1⟩]) :=
  ⟨by decide, by decide,
    grade_feedback_empty_string tAlice 1 ⟨some "50", none⟩ gradeDB gradeDBnofb
      (by decide) (Or.inl rfl) (by decide)⟩

/-- C9: with valid inputs, registering a Teacher stores no year_level and
registering a Student stores the parsed year_level; a duplicate name fails
with DuplicateName and changes nothing. -/
theorem registration_spec (db : DB) (n p : String) (ylT : Option String)
    (ylv : String) (v : Int)
    (hn : pyStrip n ≠ "") (hp : p ≠ "")
    (hylv : ylv ≠ "") (hv : parsePyIntStr ylv = some v) :
    (¬ db.users.any (fun u => u.name = pyStrip n) →
      register ⟨some n, some p, some "Teacher", ylT⟩ db =
        (.success,
          { db with
              users := db.users ++
                [⟨db.nextUserId, pyStrip n, hashPassword p, "Teacher", none⟩]
              nextUserId := db.nextUserId + 1 }) ∧
      register ⟨some n, some p, some "Student", some ylv⟩ db =
        (.success,
          { db with
              users := db.users ++
                [⟨db.nextUserId, pyStrip n, hashPassword p, "Student", some v⟩]
              nextUserId := db.nextUserId + 1 })) ∧
    (db.users.any (fun u => u.name = pyStrip n) →
      register ⟨some n, some p, some "Teacher", ylT⟩ db = (.duplicateName, db) ∧
      register ⟨some n, some p, some "Student", some ylv⟩ db = (.duplicateName, db)) := by
  have hn0 : n ≠ "" := by
    intro he
    subst he
    exact hn rfl
  have hTS : ("Teacher" : String) ≠ "Student" := by decide
  have e1 : pyOr (some n) "" = n := by simp [pyOr, hn0]
  have e2 : pyOr (some p) "" = p := by simp [pyOr, hp]
  constructor
  · intro hdup
    constructor
    · simp [register, registerValidated, truthy, e1, e2, hn, hp, hdup, hTS]
    · simp [register, registerValidated, truthy, e1, e2, hn, hp, hdup, hylv, hv]
  · intro hdup
    constructor
    · simp [register, registerValidated, truthy, e1, e2, hn, hp, hdup, hTS]
    · simp [register, registerValidated, truthy, e1, e2, hn, hp, hdup, hylv, hv]

/-- C9 witness: registering "nina" (new name) as a Student stores year 7;
registering "alice" (taken by `tAlice`) fails with DuplicateName. -/
theorem registration_spec_witness :
    register ⟨some "nina", some "pw", some "Student", some "7"⟩ gradeDB =
      (.success,
        { gradeDB with
            users := gradeDB.users ++ [⟨3, "nina", hashPassword "pw", "Student", some 7⟩]
            nextUserId := 4 }) ∧
    register ⟨some "alice", some "pw", some "Teacher", none⟩ gradeDB =
      (.duplicateName, gradeDB) := by
  have h1 := registration_spec gradeDB "nina" "pw" none "7" 7
    (by decide) (by decide) (by decide) (by decide)
  have h2 := registration_spec gradeDB "alice" "pw" none "7" 7
    (by decide) (by decide) (by decide) (by decide)
  exact ⟨(h1.1 (by decide)).2, (h2.2 (by decide)).1⟩

/-- `pyRound` never rounds below the floor. -/
theorem pyRound_ge_floor (q : ℚ) : ⌊q⌋ ≤ pyRound q := by
  unfold pyRound
  split_ifs <;> omega

/-- `pyRound` never rounds above the ceiling. -/
theorem pyRound_le_floor_add_one (q : ℚ) : pyRound q ≤ ⌊q⌋ + 1 := by
  unfold pyRound
  split_ifs <;> omega

/-- Banker's rounding is monotone. -/
theorem pyRound_mono {q r : ℚ} (h : q ≤ r) : pyRound q ≤ pyRound r := by
  have hff : ⌊q⌋ ≤ ⌊r⌋ := Int.floor_le_floor h
  rcases lt_or_eq_of_le hff with hlt | heq
  · calc pyRound q ≤ ⌊q⌋ + 1 := pyRound_le_floor_add_one q
    _ ≤ ⌊r⌋ := by omega
    _ ≤ pyRound r := pyRound_ge_floor r
  · unfold pyRound
    rw [← heq]
    split_ifs <;> first | omega | linarith

/-- Rounding to two decimal places is monotone. -/
theorem round2_mono {q r : ℚ} (h : q ≤ r) : round2 q ≤ round2 r := by
  unfold round2
  have h1 : q * 100 ≤ r * 100 := by linarith
  have h2 := pyRound_mono h1
  have h3 : ((pyRound (q * 100) : ℤ) : ℚ) ≤ ((pyRound (r * 100) : ℤ) : ℚ) := by
    exact_mod_cast h2
  linarith

/-- Enumerating a pairwise-related list is pairwise related on the values. -/
theorem pairwise_enumFrom {α : Type} {R : α → α → Prop} (l : List α) (n : Nat)
    (h : l.Pairwise R) :
    (l.enumFrom n).Pairwise (fun a b => R a.2 b.2) := by
  induction l generalizing n with
  | nil => exact List.Pairwise.nil
  | cons x xs ih =>
    rw [List.enumFrom_cons]
    rcases List.pairwise_cons.mp h with ⟨hx, hxs⟩
    refine List.Pairwise.cons ?_ (ih (n + 1) hxs)
    intro b hb
    have hb2 : b.2 ∈ xs := by
      have := List.mem_map_of_mem Prod.snd hb
      rwa [List.enumFrom_map_snd] at this
    exact hx b.2 hb2

/-- C1: the leaderboard lists exactly the Students having at least one
grade; each entry shows the student's 2-decimal-rounded mean score; entries
are in descending order of average with ranks 1..N assigned in that order;
and on the spec's example (S1: [80,90], S2: [100]) it yields S2 first with
100.00, then S1 with 85.00. -/
theorem leaderboard_spec (db : DB) :
    (∀ e ∈ computeLeaderboard db, ∃ u ∈ db.users, u.user_type = "Student" ∧
      studentScores db u.id ≠ [] ∧ e.name = u.name ∧ e.year_level = u.year_level ∧
      e.avg_score = round2 (ratAvg (studentScores db u.id))) ∧
    (∀ u ∈ db.users, u.user_type = "Student" → studentScores db u.id ≠ [] →
      ∃ e ∈ computeLeaderboard db, e.name = u.name ∧
        e.avg_score = round2 (ratAvg (studentScores db u.id))) ∧
    ((computeLeaderboard db).map (fun e => e.rank) =
      List.range' 1 (computeLeaderboard db).length) ∧
    (computeLeaderboard db).Sorted (fun a b => b.avg_score ≤ a.avg_score) ∧
    ((computeLeaderboard exampleDB).map (fun e => (e.rank, e.name, e.avg_score)) =
      [(1, "S2", (100:ℚ)), (2, "S1", (85:ℚ))]) := by
  have hC : computeLeaderboard db =
      ((leaderboardRows db).insertionSort (fun a b => b.2 ≤ a.2)).enum.map
        (fun ie => LBEntry.mk (ie.1 + 1) ie.2.1.name ie.2.1.year_level (round2 ie.2.2)) :=
    rfl
  refine ⟨?_, ?_, ?_, ?_, ?_⟩
  · intro e he
    rw [hC] at he
    obtain ⟨ie, hie, rfl⟩ := List.mem_map.mp he
    obtain ⟨i, p⟩ := ie
    have hmem : p ∈ (leaderboardRows db).insertionSort (fun a b => b.2 ≤ a.2) := by
      have h1 := List.mem_map_of_mem Prod.snd hie
      rwa [List.enum_map_snd] at h1
    have hmem2 : p ∈ leaderboardRows db := (List.mem_insertionSort _).mp hmem
    obtain ⟨u, hufil, hmap⟩ := List.mem_filterMap.mp hmem2
    obtain ⟨huin, huty⟩ := List.mem_filter.mp hufil
    by_cases hempty : (studentScores db u.id).isEmpty
    · rw [if_pos hempty] at hmap
      cases hmap
    · rw [if_neg hempty] at hmap
      have hp : p = (u, ratAvg (studentScores db u.id)) := by
        injection hmap with h1
        exact h1.symm
      subst hp
      exact ⟨u, huin, by simpa using huty,
        by simpa [List.isEmpty_iff] using hempty, rfl, rfl, rfl⟩
  · intro u hu hty hne
    have hrow : (u, ratAvg (studentScores db u.id)) ∈ leaderboardRows db := by
      apply List.mem_filterMap.mpr
      refine ⟨u, List.mem_filter.mpr ⟨hu, by simp [hty]⟩, ?_⟩
      rw [if_neg (by simpa [List.isEmpty_iff] using hne)]
    have hsor : (u, ratAvg (studentScores db u.id)) ∈
        (leaderboardRows db).insertionSort (fun a b => b.2 ≤ a.2) :=
      (List.mem_insertionSort _).mpr hrow
    obtain ⟨i, hlt, hgi⟩ := List.mem_iff_getElem.mp hsor
    have hlen : i < ((leaderboardRows db).insertionSort (fun a b => b.2 ≤ a.2)).enum.length := by
      simpa [List.enum_length] using hlt
    have h1 : ((leaderboardRows db).insertionSort (fun a b => b.2 ≤ a.2)).enum.get
        ⟨i, hlen⟩ = (i, (u, ratAvg (studentScores db u.id))) := by
      rw [List.get_eq_getElem, List.getElem_enum, hgi]
    have henum : (i, (u, ratAvg (studentScores db u.id))) ∈
        ((leaderboardRows db).insertionSort (fun a b => b.2 ≤ a.2)).enum := by
      rw [← h1]
      exact List.get_mem _ _ _
    rw [hC]
    exact ⟨_, List.mem_map_of_mem _ henum, rfl, rfl⟩
  · rw [hC, List.map_map]
    rw [show ((fun e => LBEntry.rank e) ∘
        (fun (ie : Nat × (User × ℚ)) =>
          LBEntry.mk (ie.1 + 1) ie.2.1.name ie.2.1.year_level (round2 ie.2.2))) =
        ((fun i => i + 1) ∘ Prod.fst) from rfl]
    rw [← List.map_map, List.enum_map_fst]
    rw [show (((leaderboardRows db).insertionSort (fun a b => b.2 ≤ a.2)).enum.map
        (fun ie => LBEntry.mk (ie.1 + 1) ie.2.1.name ie.2.1.year_level
          (round2 ie.2.2))).length =
        ((leaderboardRows db).insertionSort (fun a b => b.2 ≤ a.2)).length by
      simp [List.enum_length]]
    rw [List.range'_eq_map_range]
    exact List.map_congr_left (fun a _ => Nat.add_comm a 1)
  · rw [hC]
    have hsorted : ((leaderboardRows db).insertionSort
        (fun a b => b.2 ≤ a.2)).Sorted (fun a b => b.2 ≤ a.2) := by
      haveI ht : IsTotal (User × ℚ) (fun a b => b.2 ≤ a.2) :=
        ⟨fun a b => le_total b.2 a.2⟩
      haveI htr : IsTrans (User × ℚ) (fun a b => b.2 ≤ a.2) :=
        ⟨fun a b c h1 h2 => le_trans h2 h1⟩
      exact List.sorted_insertionSort _ _
    have henum : (((leaderboardRows db).insertionSort
        (fun a b => b.2 ≤ a.2)).enum).Pairwise (fun a b => b.2.2 ≤ a.2.2) := by
      rw [List.enum_eq_enumFrom]
      exact pairwise_enumFrom _ 0 hsorted
    exact henum.map _ (fun a b hab => round2_mono hab)
  · have h1 : ratAvg [80, 90] = 85 := by norm_num [ratAvg]
    have h2 : ratAvg [100] = 100 := by norm_num [ratAvg]
    have hrows : leaderboardRows exampleDB =
        [(⟨2, "S1", hashPassword "pw", "Student", some 7⟩, (85:ℚ)),
         (⟨3, "S2", hashPassword "pw", "Student", some 8⟩, (100:ℚ))] := by
      rw [show leaderboardRows exampleDB =
        [(⟨2, "S1", hashPassword "pw", "Student", some 7⟩, ratAvg [80, 90]),
         (⟨3, "S2", hashPassword "pw", "Student", some 8⟩, ratAvg [100])] from rfl,
        h1, h2]
    unfold computeLeaderboard
    rw [hrows]
    have hle : ¬ ((100:ℚ) ≤ 85) := by norm_num
    simp [List.insertionSort, List.orderedInsert, hle, List.enum]
    constructor
    · exact_mod_cast round2_intCast 100
    · exact_mod_cast round2_intCast 85

/-- C1 witness: the general theorem applied to the spec's example database. -/
theorem leaderboard_spec_witness :
    ((computeLeaderboard exampleDB).map (fun e => e.rank) =
      List.range' 1 (computeLeaderboard exampleDB).length) ∧
    ((computeLeaderboard exampleDB).map (fun e => (e.rank, e.name, e.avg_score)) =
      [(1, "S2", (100:ℚ)), (2, "S1", (85:ℚ))]) :=
  ⟨(leaderboard_spec exampleDB).2.2.1, (leaderboard_spec exampleDB).2.2.2.2⟩
